import Mathlib

/-!
Verification of the `web-search-ai-agent` repository (TypeScript).

The repository has two client components:
* `NosanaLLM` (src/llm.ts): an inference client that POSTs to an
  OpenAI-compatible endpoint first and falls back to a native Ollama-style
  endpoint on HTTP 404/405, with a format-aware response parser.
* `BrightDataScraper` (src/tools/scraper.ts): a search client that wraps the
  raw provider payload into a single truncated `SearchResult` and swallows all
  failures, plus a `WebSearchTool` adapter.

The shallow embedding below models JavaScript values that flow through these
functions as a JSON-like inductive type `Json` (with an `undefined` constructor for
JavaScript `undefined`, so that property access is total, as it is in the
guarded `&&` chains of the source), and models each source function as a pure
Lean function over `Json`.  Thrown `Error`s become `Except` errors / explicit
error constructors mirroring the spec's error taxonomy.
-/

/-- JavaScript/JSON values as seen by the client code.  `undefined` models
`undefined` (the result of reading an absent property), so property access is
a total function exactly as in the guarded expressions of the source. -/
inductive Json where
  | null : Json
  | undefined : Json
  | bool : Bool → Json
  | num : Int → Json
  | str : String → Json
  | arr : List Json → Json
  | obj : List (String × Json) → Json

namespace Json

/-- JavaScript truthiness: `null`, `undefined`, `false`, `0` and `""` are
falsy; every object and array (even empty) is truthy. -/
def truthy : Json → Bool
  | .null => false
  | .undefined => false
  | .bool b => b
  | .num n => n != 0
  | .str s => s != ""
  | .arr _ => true
  | .obj _ => true

/-- Property access `j.k`: looks up a field of an object; anything else (and a
missing field) yields `undefined`.  Models the accesses in the source, which
are always guarded by `&&` so never fault. -/
def jGet (j : Json) (k : String) : Json :=
  match j with
  | .obj fs => (fs.lookup k).getD .undefined
  | _ => .undefined

/-- Array indexing `j[i]`; non-arrays and out-of-range indices give
`undefined`. -/
def jIdx (j : Json) (i : Nat) : Json :=
  match j with
  | .arr xs => (xs.get? i).getD .undefined
  | _ => .undefined

/-- `Array.isArray`. -/
def isArr : Json → Bool
  | .arr _ => true
  | _ => false

/-- `.length` of an array (only ever read under an `Array.isArray` guard in
the source). -/
def arrLen : Json → Nat
  | .arr xs => xs.length
  | _ => 0

mutual
/-- Models `JSON.stringify` (compact form; the claims under verification do
not depend on whitespace or escaping details of the serialization, only on
the fact that the payload is serialized into the message / snippet). -/
def render : Json → String
  | .null => "null"
  | .undefined => "undefined"
  | .bool true => "true"
  | .bool false => "false"
  | .num n => toString n
  | .str s => "\"" ++ s ++ "\""
  | .arr xs => "[" ++ renderArr xs ++ "]"
  | .obj fs => "\x7b" ++ renderObj fs ++ "\x7d"

def renderArr : List Json → String
  | [] => ""
  | [x] => render x
  | x :: xs => render x ++ "," ++ renderArr xs

def renderObj : List (String × Json) → String
  | [] => ""
  | [(k, v)] => "\"" ++ k ++ "\":" ++ render v
  | (k, v) :: fs => "\"" ++ k ++ "\":" ++ render v ++ "," ++ renderObj fs
end

end Json

/-! ## Base-address normalization (`NosanaLLM` constructor, llm.ts line 9)

`this.baseUrl = baseUrl.replace(/\/+$/, '').replace(/\/api$/, '')`
modelled over the character list of the address. -/

/-- `replace(/\/+$/, '')`: remove every trailing `/` character. -/
def dropTrailingSlashes (cs : List Char) : List Char :=
  (cs.reverse.dropWhile (fun c => c = '/')).reverse

/-- `replace(/\/api$/, '')`: remove one trailing `/api` segment if present. -/
def dropApiSuffix (cs : List Char) : List Char :=
  if "/api".toList.isSuffixOf cs then cs.take (cs.length - 4) else cs

/-- The constructor's base-address normalization: strip trailing slashes,
then strip a trailing `/api` segment. -/
def normalizeBaseUrl (cs : List Char) : List Char :=
  dropApiSuffix (dropTrailingSlashes cs)

/-! ## Model resolution (`NosanaLLM` constructor, llm.ts line 11)

`this.model = model || process.env.NOSANA_MODEL || 'ollama:0.12'`.
An absent argument / environment variable is `none`; JavaScript `||` also
skips an empty string, since `""` is falsy. -/

/-- JavaScript `a || b` for an optional string `a`: `b` when `a` is absent or
the empty string. -/
def strOr (a : Option String) (b : String) : String :=
  match a with
  | some s => if s = "" then b else s
  | none => b

/-- Resolution of the model identifier from the optional constructor argument
and the optional `NOSANA_MODEL` environment value. -/
def resolveModel (model : Option String) (envModel : Option String) : String :=
  strOr model (strOr envModel "ollama:0.12")

/-! ## Response parsing (`parseResponse`, llm.ts lines 87-106)

The source function receives the whole axios response object and reads
`response.data`; the theorems wrap a payload `p` into such a response object
with `mkResponse`.  A thrown `Invalid response format` error is modelled as
`Except.error` carrying the payload `response.data` that the source serializes
into the message (the serialization `Json.render` is injective on the shapes
involved, so carrying the payload models carrying its serialization). -/

inductive Fmt where
  | openai : Fmt
  | ollama : Fmt

open Json in
/-- Transliteration of `parseResponse` from llm.ts:
* `openai` branch: the guarded chain
  `response && response.data && response.data.choices &&
   Array.isArray(...) && ....length > 0 && ...[0].message &&
   ...[0].message.content`, returning the content;
* `ollama` branch: `response.data.response` first, then
  `response.data.message.content`;
* otherwise `throw new Error("Invalid response format: " + stringify(data))`.
-/
def parseResponse (response : Json) (format : Fmt) : Except Json Json :=
  match format with
  | .openai =>
    if truthy response && truthy (jGet response "data")
        && truthy (jGet (jGet response "data") "choices")
        && isArr (jGet (jGet response "data") "choices")
        && decide (0 < arrLen (jGet (jGet response "data") "choices"))
        && truthy (jGet (jIdx (jGet (jGet response "data") "choices") 0) "message")
        && truthy (jGet (jGet (jIdx (jGet (jGet response "data") "choices") 0) "message") "content") then
      .ok (jGet (jGet (jIdx (jGet (jGet response "data") "choices") 0) "message") "content")
    else
      .error (jGet response "data")
  | .ollama =>
    if truthy response && truthy (jGet response "data")
        && truthy (jGet (jGet response "data") "response") then
      .ok (jGet (jGet response "data") "response")
    else if truthy response && truthy (jGet response "data")
        && truthy (jGet (jGet response "data") "message")
        && truthy (jGet (jGet (jGet response "data") "message") "content") then
      .ok (jGet (jGet (jGet response "data") "message") "content")
    else
      .error (jGet response "data")

/-- An axios response object whose `data` field holds the payload `p`. -/
def mkResponse (p : Json) : Json :=
  Json.obj [("data", p)]

open Json in
/-- The primary (OpenAI-compatible) payload shape, stated from the spec's
words: a non-empty `choices` list whose first element has a `message` object
with non-empty (JavaScript-truthy) `content`. -/
def hasPrimaryShape (p : Json) : Bool :=
  match jGet p "choices" with
  | .arr (c :: _) =>
    (match jGet c "message" with
     | .obj _ => truthy (jGet (jGet c "message") "content")
     | _ => false)
  | _ => false

open Json in
/-- The content extracted from a primary-shape payload. -/
def primaryContent (p : Json) : Json :=
  jGet (jGet (jIdx (jGet p "choices") 0) "message") "content"

open Json in
/-- The alternate (native Ollama) payload shape, stated from the spec's words:
a (truthy) direct `response` field, or a (truthy) `message.content` field. -/
def hasAltShape (p : Json) : Bool :=
  truthy (jGet p "response")
    || (truthy (jGet p "message") && truthy (jGet (jGet p "message") "content"))

/-! ## The generate/chat control flow (llm.ts lines 18-168)

Each outbound POST (`makeApiCall`) has one of four outcomes, decided by the
backend/transport environment; this mirrors the shapes an axios failure can
take (`error.response` present / `error.request` present / neither): -/

/-- Outcome of one `makeApiCall` POST, as the environment decides it.
`success` carries `response.data`; `httpError` carries the response status,
the error body `error.response.data` and the axios `error.message`;
`networkError` is a request with no response; `setupError` is a request that
could not be sent at all. -/
inductive CallResult where
  | success : Json → CallResult
  | httpError : Nat → Json → String → CallResult
  | networkError : String → CallResult
  | setupError : String → CallResult

/-- What a `catch` block observes: a thrown value with `error.response`
present, with only `error.request` present, or a plain `Error` (for example a
parse failure thrown inside the `try`). -/
inductive CaughtError where
  | http : Nat → Json → String → CaughtError
  | noResponse : String → CaughtError
  | plain : String → CaughtError

/-- The error taxonomy of the spec, as raised to the caller of
`generate`/`chat`.  `backendError` carries status and raw error body;
`bothFormatsFailed` is the fixed-message single-turn terminal error;
`nativeChatFailed` carries the wrapped underlying message. -/
inductive GenError where
  | backendError : Nat → Json → GenError
  | transportError : String → GenError
  | requestError : String → GenError
  | bothFormatsFailed : GenError
  | nativeChatFailed : String → GenError

/-- The message of the `Invalid response format` error thrown by
`parseResponse` for payload `p`. -/
def parseErrMsg (p : Json) : String :=
  "Invalid response format: " ++ Json.render p

/-- Transliteration of `handleApiError` (llm.ts lines 111-125): on a response
with status 404 or 405 run the fallback, on any other response status throw
the backend error with status and raw body, on a response-less request throw
the transport error, otherwise throw the request error.  The second component
of the pair counts calls to the alternate endpoint. -/
def handleApiError (error : CaughtError) (fallback : Except GenError Json × Nat) :
    Except GenError Json × Nat :=
  match error with
  | .http s b _ => if s = 404 ∨ s = 405 then fallback else (.error (.backendError s b), 0)
  | .noResponse m => (.error (.transportError m), 0)
  | .plain m => (.error (.requestError m), 0)

/-- Transliteration of `generateNativeOllama` (llm.ts lines 130-149): POST to
`<base>/api/generate`, parse with the alternate-format parser; any failure in
the `try` (HTTP, transport or parse) is replaced by the fixed terminal
`Both API formats failed` error.  The count 1 records the single call made to
the alternate endpoint. -/
def generateNativeOllama (altR : CallResult) : Except GenError Json × Nat :=
  match altR with
  | .success body =>
    (match parseResponse (mkResponse body) .ollama with
     | .ok v => (.ok v, 1)
     | .error _ => (.error .bothFormatsFailed, 1))
  | .httpError _ _ _ => (.error .bothFormatsFailed, 1)
  | .networkError _ => (.error .bothFormatsFailed, 1)
  | .setupError _ => (.error .bothFormatsFailed, 1)

/-- Whether the alternate-format attempt fails for a given outcome of the
alternate POST: every non-success outcome fails, and a successful response
fails exactly when the alternate-format parse rejects its payload. -/
def altCallFails (altR : CallResult) : Bool :=
  match altR with
  | .success body =>
    (match parseResponse (mkResponse body) .ollama with
     | .ok _ => false
     | .error _ => true)
  | _ => true

/-- The `error.message` the alternate-format attempt's `catch` block observes
when the attempt fails: the axios message for HTTP/transport/setup failures,
the `Invalid response format` message for a parse failure. -/
def altFailureMsg (altR : CallResult) : String :=
  match altR with
  | .success body => parseErrMsg body
  | .httpError _ _ m => m
  | .networkError m => m
  | .setupError m => m

/-- Transliteration of `chatNativeOllama` (llm.ts lines 154-168): POST to
`<base>/api/chat`, parse with the alternate-format parser; any failure is
wrapped into `Native chat also failed: <error.message>`. -/
def chatNativeOllama (altR : CallResult) : Except GenError Json × Nat :=
  match altR with
  | .success body =>
    (match parseResponse (mkResponse body) .ollama with
     | .ok v => (.ok v, 1)
     | .error p => (.error (.nativeChatFailed (parseErrMsg p)), 1))
  | .httpError _ _ m => (.error (.nativeChatFailed m), 1)
  | .networkError m => (.error (.nativeChatFailed m), 1)
  | .setupError m => (.error (.nativeChatFailed m), 1)

/-- Transliteration of `generate` (llm.ts lines 18-48) as a function of the
outcomes the backend gives the primary POST (`<base>/v1/chat/completions`)
and, were it called, the alternate POST (`<base>/api/generate`).  The `try`
block covers both the POST and the primary-format parse, so a parse failure
of a successful primary response reaches `handleApiError` as a plain `Error`.
The second component counts calls to the alternate endpoint. -/
def generate (primaryR altR : CallResult) : Except GenError Json × Nat :=
  match primaryR with
  | .success body =>
    (match parseResponse (mkResponse body) .openai with
     | .ok v => (.ok v, 0)
     | .error p => handleApiError (.plain (parseErrMsg p)) (generateNativeOllama altR))
  | .httpError s b m => handleApiError (.http s b m) (generateNativeOllama altR)
  | .networkError m => handleApiError (.noResponse m) (generateNativeOllama altR)
  | .setupError m => handleApiError (.plain m) (generateNativeOllama altR)

/-- Transliteration of `chat` (llm.ts lines 53-70): identical control flow to
`generate` but with `chatNativeOllama` as the fallback. -/
def chat (primaryR altR : CallResult) : Except GenError Json × Nat :=
  match primaryR with
  | .success body =>
    (match parseResponse (mkResponse body) .openai with
     | .ok v => (.ok v, 0)
     | .error p => handleApiError (.plain (parseErrMsg p)) (chatNativeOllama altR))
  | .httpError s b m => handleApiError (.http s b m) (chatNativeOllama altR)
  | .networkError m => handleApiError (.noResponse m) (chatNativeOllama altR)
  | .setupError m => handleApiError (.plain m) (chatNativeOllama altR)

/-! ## The search client (`BrightDataScraper`, scraper.ts) -/

/-- A search result record (scraper.ts lines 3-7). -/
structure SearchResult where
  title : String
  url : String
  snippet : String
  deriving DecidableEq

/-- `typeof data === 'string' ? data : JSON.stringify(data, null, 2)`:
the payload itself when it is already a string, else its serialization. -/
def dataToString (data : Json) : String :=
  match data with
  | .str s => s
  | _ => Json.render data

/-- Transliteration of `formatRawResults` (scraper.ts lines 64-78): a falsy
payload (`!data`) gives no results; otherwise `dataToString data` becomes the
snippet of a single fixed-title result, truncated by `substring(0, 5000)`
(modelled on the character list of the string). -/
def formatRawResults (data : Json) : List SearchResult :=
  if Json.truthy data = false then []
  else
    [{ title := "Search Results"
       url := "https://www.google.com"
       snippet := String.mk ((dataToString data).toList.take 5000) }]

set_option linter.unusedVariables false in
/-- Transliteration of `searchWeb` (scraper.ts lines 19-58) as a function of
the provider's outcome for the single POST to the BrightData endpoint.  The
`limit` parameter is accepted and unused, as in the source; every failure is
swallowed and becomes the empty list. -/
def searchWeb (resp : CallResult) (limit : Nat := 5) : List SearchResult :=
  match resp with
  | .success data => formatRawResults data
  | .httpError _ _ _ => []
  | .networkError _ => []
  | .setupError _ => []

/-- Transliteration of `WebSearchTool._call` (the tool adapter): delegates to
`searchWeb` and formats either the fixed no-results message or a header plus
the single snippet. -/
def webSearchToolCall (query : String) (resp : CallResult) : String :=
  match searchWeb resp with
  | [] => "No search results found. The web search failed or returned no data."
  | r :: _ =>
    "Web search results for \"" ++ query ++ "\":\n\n" ++ r.snippet

/-! ## Helper lemmas -/

theorem dropTrailingSlashes_of_getLast (l : List Char) (h : l.getLast? ≠ some '/') :
    dropTrailingSlashes l = l := by
  unfold dropTrailingSlashes
  cases hr : l.reverse with
  | nil => simpa using congrArg List.reverse hr.symm
  | cons a t =>
    have ha : a ≠ '/' := by
      intro rfla
      apply h
      rw [← List.head?_reverse, hr, rfla]
      rfl
    rw [List.dropWhile_cons, if_neg (by simpa using ha), ← hr, List.reverse_reverse]

theorem dropApiSuffix_of_not_suffix (l : List Char)
    (h : ¬ ("/api".toList <:+ l)) : dropApiSuffix l = l := by
  unfold dropApiSuffix
  rw [if_neg]
  simpa using h

/-- Reading the `data` field of the wrapped axios response gives back the
payload. -/
@[simp] theorem jGet_mkResponse (p : Json) : Json.jGet (mkResponse p) "data" = p := by
  simp [mkResponse, Json.jGet, List.lookup]

@[simp] theorem truthy_mkResponse (p : Json) : Json.truthy (mkResponse p) = true := rfl

@[simp] theorem truthy_null : Json.truthy Json.null = false := rfl

@[simp] theorem truthy_undefined : Json.truthy Json.undefined = false := rfl

@[simp] theorem truthy_arr (xs : List Json) : Json.truthy (Json.arr xs) = true := rfl

@[simp] theorem truthy_obj (fs : List (String × Json)) :
    Json.truthy (Json.obj fs) = true := rfl

@[simp] theorem jGet_null (k : String) : Json.jGet Json.null k = Json.undefined := rfl

@[simp] theorem jGet_undefined (k : String) : Json.jGet Json.undefined k = Json.undefined := rfl

@[simp] theorem jGet_bool (b : Bool) (k : String) :
    Json.jGet (Json.bool b) k = Json.undefined := rfl

@[simp] theorem jGet_num (n : Int) (k : String) :
    Json.jGet (Json.num n) k = Json.undefined := rfl

@[simp] theorem jGet_str (s : String) (k : String) :
    Json.jGet (Json.str s) k = Json.undefined := rfl

@[simp] theorem jGet_arr (xs : List Json) (k : String) :
    Json.jGet (Json.arr xs) k = Json.undefined := rfl

@[simp] theorem jIdx_cons_zero (x : Json) (xs : List Json) :
    Json.jIdx (Json.arr (x :: xs)) 0 = x := rfl

@[simp] theorem isArr_arr (xs : List Json) : Json.isArr (Json.arr xs) = true := rfl

@[simp] theorem arrLen_arr (xs : List Json) : Json.arrLen (Json.arr xs) = xs.length := rfl

/-- Reading any property of a non-object yields `undefined`, which is falsy;
so a truthy property value forces the receiver to be a (truthy) object. -/
theorem truthy_of_jGet_truthy (m : Json) (k : String)
    (h : Json.truthy (Json.jGet m k) = true) : Json.truthy m = true := by
  cases m <;> simp_all [Json.jGet, Json.truthy]

/-- Characterization of the `ollama` branch of `parseResponse` on a wrapped
payload: a truthy `response` field wins, else a truthy `message.content`
is returned, else the parse fails carrying the payload. -/
theorem parse_ollama_spec (p : Json) :
    (Json.truthy (Json.jGet p "response") = true →
      parseResponse (mkResponse p) .ollama = .ok (Json.jGet p "response"))
    ∧ (Json.truthy (Json.jGet p "response") = false →
      Json.truthy (Json.jGet (Json.jGet p "message") "content") = true →
      parseResponse (mkResponse p) .ollama = .ok (Json.jGet (Json.jGet p "message") "content"))
    ∧ (hasAltShape p = false → parseResponse (mkResponse p) .ollama = .error p) := by
  refine ⟨?_, ?_, ?_⟩
  · intro hr
    have hp : Json.truthy p = true := truthy_of_jGet_truthy p "response" hr
    simp [parseResponse, hp, hr]
  · intro hr hc
    have hp : Json.truthy p = true :=
      truthy_of_jGet_truthy p "message" (truthy_of_jGet_truthy _ "content" hc)
    simp [parseResponse, hp, hr, hc, truthy_of_jGet_truthy _ "content" hc]
  · intro hs
    simp only [hasAltShape, Bool.or_eq_false_iff, Bool.and_eq_false_iff] at hs
    obtain ⟨hr, hmc⟩ := hs
    rcases hmc with hm | hc
    · simp [parseResponse, hr, hm]
    · simp [parseResponse, hr, hc]

/-- Characterization of the `openai` branch of `parseResponse` on a wrapped
payload: it succeeds exactly on primary-shape payloads, returning the first
choice's message content, and fails carrying the payload otherwise. -/
theorem parse_openai_spec (p : Json) :
    (hasPrimaryShape p = true →
      parseResponse (mkResponse p) .openai = .ok (primaryContent p))
    ∧ (hasPrimaryShape p = false →
      parseResponse (mkResponse p) .openai = .error p) := by
  constructor
  · intro hs
    unfold hasPrimaryShape at hs
    rcases hch : Json.jGet p "choices" with _ | _ | b | n | s | xs | fs <;> rw [hch] at hs
    case arr =>
      rcases xs with _ | ⟨c, xs⟩
      · exact absurd hs (by simp)
      simp only at hs
      have hp : Json.truthy p = true := truthy_of_jGet_truthy p "choices" (by rw [hch]; rfl)
      rcases hm : Json.jGet c "message" with _ | _ | b | n | s | ys | gs <;>
        rw [hm] at hs <;> simp only at hs
      case obj =>
        simp [parseResponse, primaryContent, hp, hch, hm, hs]
      all_goals exact absurd hs (by simp)
    all_goals exact absurd hs (by simp)
  · intro hs
    unfold hasPrimaryShape at hs
    by_cases hp : Json.truthy p = true
    · rcases hch : Json.jGet p "choices" with _ | _ | b | n | s | xs | fs <;> rw [hch] at hs <;>
        try (simp [parseResponse, hp, hch, Json.truthy, Json.isArr]; done)
      rcases xs with _ | ⟨c, xs⟩
      · simp [parseResponse, hp, hch]
      simp only at hs
      have hcond : (Json.truthy (Json.jGet c "message")
          && Json.truthy (Json.jGet (Json.jGet c "message") "content")) = false := by
        rcases hm : Json.jGet c "message" with _ | _ | b | n | s | ys | gs <;>
          rw [hm] at hs <;> simp only at hs <;> simp_all [Json.truthy]
      simp [parseResponse, hp, hch, hcond]
    · have hp' : Json.truthy p = false := by
        cases hb : Json.truthy p
        · rfl
        · exact absurd hb hp
      simp [parseResponse, hp']

/-- Every branch of the single-turn fallback makes exactly one call to the
alternate endpoint. -/
theorem generateNativeOllama_count (altR : CallResult) :
    (generateNativeOllama altR).2 = 1 := by
  cases altR with
  | success body =>
    cases hp : parseResponse (mkResponse body) Fmt.ollama <;>
      simp [generateNativeOllama, hp]
  | httpError s b m => rfl
  | networkError m => rfl
  | setupError m => rfl

/-- Every branch of the multi-turn fallback makes exactly one call to the
alternate endpoint. -/
theorem chatNativeOllama_count (altR : CallResult) :
    (chatNativeOllama altR).2 = 1 := by
  cases altR with
  | success body =>
    cases hp : parseResponse (mkResponse body) Fmt.ollama <;>
      simp [chatNativeOllama, hp]
  | httpError s b m => rfl
  | networkError m => rfl
  | setupError m => rfl

/-- A parse failure on a wrapped payload carries exactly that payload. -/
theorem parse_mkResponse_error_eq (p q : Json) (format : Fmt)
    (h : parseResponse (mkResponse p) format = .error q) : q = p := by
  cases format
  · simp only [parseResponse] at h
    split at h
    · exact Except.noConfusion h
    · injection h with h1
      rw [← h1]
      simp
  · simp only [parseResponse] at h
    split at h
    · exact Except.noConfusion h
    · split at h
      · exact Except.noConfusion h
      · injection h with h1
        rw [← h1]
        simp

/-! ## Claims -/

/-- C1: for every `generate` or `chat` call whose primary POST fails with an
HTTP response, the alternate endpoint is called exactly once if and only if
the status is 404 or 405; for any other status the call raises the backend
error carrying the status code and raw error body, with no alternate call. -/
theorem fallback_iff_endpoint_not_found (s : Nat) (b : Json) (m : String)
    (altR : CallResult) :
    ((generate (.httpError s b m) altR).2 = 1 ↔ (s = 404 ∨ s = 405))
    ∧ ((chat (.httpError s b m) altR).2 = 1 ↔ (s = 404 ∨ s = 405))
    ∧ (¬ (s = 404 ∨ s = 405) →
        generate (.httpError s b m) altR = (.error (.backendError s b), 0)
        ∧ chat (.httpError s b m) altR = (.error (.backendError s b), 0)) := by
  by_cases h : s = 404 ∨ s = 405
  · refine ⟨?_, ?_, fun hn => absurd h hn⟩
    · simp [generate, handleApiError, h, generateNativeOllama_count altR]
    · simp [chat, handleApiError, h, chatNativeOllama_count altR]
  · exact ⟨by simp [generate, handleApiError, h],
      by simp [chat, handleApiError, h],
      fun _ => ⟨by simp [generate, handleApiError, h], by simp [chat, handleApiError, h]⟩⟩

/-- Witness for C1: a 500 on the primary endpoint raises the backend error
with status and body and makes no alternate call. -/
theorem fallback_iff_endpoint_not_found_witness :
    generate (.httpError 500 (Json.str "oops") "m") (.networkError "x")
      = (.error (.backendError 500 (Json.str "oops")), 0) :=
  ((fallback_iff_endpoint_not_found 500 (Json.str "oops") "m"
      (.networkError "x")).2.2 (by decide)).1

/-- C2 counterexample: normalization is not idempotent on every input; on
`"http://host/api/api"` the first pass leaves `"http://host/api"` and a second
pass strips further. -/
theorem normalize_not_idempotent :
    normalizeBaseUrl (normalizeBaseUrl "http://host/api/api".toList)
      ≠ normalizeBaseUrl "http://host/api/api".toList := by decide

/-- C2 amended: normalization is idempotent on every address whose normalized
form ends in neither a slash nor `/api`; and both `"http://host/api"` and
`"http://host/"` normalize to `"http://host"`. -/
theorem normalize_idempotent_amended :
    (∀ cs : List Char,
      (normalizeBaseUrl cs).getLast? ≠ some '/' →
      ¬ ("/api".toList <:+ normalizeBaseUrl cs) →
      normalizeBaseUrl (normalizeBaseUrl cs) = normalizeBaseUrl cs)
    ∧ normalizeBaseUrl "http://host/api".toList = "http://host".toList
    ∧ normalizeBaseUrl "http://host/".toList = "http://host".toList := by
  refine ⟨fun cs h1 h2 => ?_, by decide, by decide⟩
  show dropApiSuffix (dropTrailingSlashes (normalizeBaseUrl cs)) = normalizeBaseUrl cs
  rw [dropTrailingSlashes_of_getLast _ h1, dropApiSuffix_of_not_suffix _ h2]

/-- Witness for C2 (amended): renormalizing the already-normalized
`"http://host"` leaves it unchanged. -/
theorem normalize_idempotent_amended_witness :
    normalizeBaseUrl (normalizeBaseUrl "http://host".toList)
      = normalizeBaseUrl "http://host".toList :=
  normalize_idempotent_amended.1 "http://host".toList (by decide) (by decide)

/-- C3 counterexample: an explicitly supplied empty-string model argument is
not used; the environment value wins, because `||` skips the falsy `""`. -/
theorem resolveModel_empty_arg_ignored :
    resolveModel (some "") (some "from-env") = "from-env"
      ∧ ("from-env" : String) ≠ "" :=
  ⟨rfl, by decide⟩

/-- C3 amended: a non-empty explicit model argument always wins; with the
argument absent, a non-empty environment value wins; otherwise (absent or
empty at either level) the fixed default `"ollama:0.12"` is used. -/
theorem resolveModel_precedence_amended :
    (∀ (m : String) (env : Option String), m ≠ "" → resolveModel (some m) env = m)
    ∧ (∀ e : String, e ≠ "" → resolveModel none (some e) = e)
    ∧ resolveModel none none = "ollama:0.12"
    ∧ resolveModel none (some "") = "ollama:0.12" := by
  refine ⟨fun m env hm => ?_, fun e he => ?_, rfl, rfl⟩
  · simp [resolveModel, strOr, hm]
  · simp [resolveModel, strOr, he]

/-- Witness for C3 (amended): a non-empty explicit argument wins over the
environment value. -/
theorem resolveModel_precedence_amended_witness :
    resolveModel (some "llama3") (some "envmodel") = "llama3" :=
  resolveModel_precedence_amended.1 "llama3" (some "envmodel") (by decide)

/-- C4 counterexample: a payload that has a direct `response` field holding
the falsy `""` together with `message.content` parses to the
`message.content` value, not to the `response` value — presence of the
`response` field alone does not make it win. -/
theorem alt_parse_falsy_response_field :
    parseResponse (mkResponse (Json.obj [("response", Json.str ""),
        ("message", Json.obj [("content", Json.str "hi")])])) .ollama
      = .ok (Json.str "hi")
    ∧ parseResponse (mkResponse (Json.obj [("response", Json.str ""),
        ("message", Json.obj [("content", Json.str "hi")])])) .ollama
      ≠ .ok (Json.str "") := by
  refine ⟨rfl, fun h => ?_⟩
  have heq : (Except.ok (Json.str "hi") : Except Json Json) = .ok (Json.str "") := h
  injection heq with h1
  injection h1 with h2
  exact absurd h2 (by decide)

/-- C4 amended: the alternate-format parser returns a truthy `response` field
value when present; otherwise it returns a truthy `message.content` value;
`response` is checked first and wins whenever it is truthy. -/
theorem alt_parse_amended (p : Json) :
    (Json.truthy (Json.jGet p "response") = true →
      parseResponse (mkResponse p) .ollama = .ok (Json.jGet p "response"))
    ∧ (Json.truthy (Json.jGet p "response") = false →
      Json.truthy (Json.jGet (Json.jGet p "message") "content") = true →
      parseResponse (mkResponse p) .ollama
        = .ok (Json.jGet (Json.jGet p "message") "content")) :=
  ⟨(parse_ollama_spec p).1, (parse_ollama_spec p).2.1⟩

/-- Witness for C4 (amended): `{response:"hi"}` parses to `"hi"`. -/
theorem alt_parse_amended_witness :
    parseResponse (mkResponse (Json.obj [("response", Json.str "hi")])) .ollama
      = .ok (Json.str "hi") :=
  (alt_parse_amended (Json.obj [("response", Json.str "hi")])).1 (by decide)

/-- C5: the primary-format parse succeeds exactly on payloads with a
non-empty `choices` list whose first element has a `message` object with
non-empty (truthy) `content`, returning that content; in particular
`{choices:[{message:{content:"hi"}}]}` parses to `"hi"`. -/
theorem primary_parse_characterization :
    (∀ p : Json,
      (hasPrimaryShape p = true →
        parseResponse (mkResponse p) .openai = .ok (primaryContent p))
      ∧ (hasPrimaryShape p = false →
        parseResponse (mkResponse p) .openai = .error p))
    ∧ parseResponse (mkResponse (Json.obj [("choices",
        Json.arr [Json.obj [("message", Json.obj [("content", Json.str "hi")])]])])) .openai
      = .ok (Json.str "hi") :=
  ⟨parse_openai_spec, rfl⟩

/-- Witness for C5: the primary-shape example succeeds with its content. -/
theorem primary_parse_characterization_witness :
    parseResponse (mkResponse (Json.obj [("choices",
        Json.arr [Json.obj [("message", Json.obj [("content", Json.str "hi")])]])])) .openai
      = .ok (primaryContent (Json.obj [("choices",
        Json.arr [Json.obj [("message", Json.obj [("content", Json.str "hi")])]])])) :=
  (primary_parse_characterization.1 _).1 (by decide)

/-- C6: a payload matching neither the primary nor the alternate shape makes
the parser (a pure function in this embedding) fail, for either format, with
the invalid-format error carrying the payload that the source serializes into
the message. -/
theorem parse_neither_shape_error (p : Json) (format : Fmt)
    (h1 : hasPrimaryShape p = false) (h2 : hasAltShape p = false) :
    parseResponse (mkResponse p) format = .error p := by
  cases format
  · exact (parse_openai_spec p).2 h1
  · exact (parse_ollama_spec p).2.2 h2

/-- Witness for C6: the empty object matches neither shape and fails. -/
theorem parse_neither_shape_error_witness :
    parseResponse (mkResponse (Json.obj [])) .openai = .error (Json.obj []) :=
  parse_neither_shape_error (Json.obj []) .openai (by decide) (by decide)

/-- C7 counterexample: when the single-turn fallback fails, the terminal
error is the same for two different underlying failure messages, so it is the
fixed-message `BothFormatsFailedError` and does not wrap the underlying
failure's message. -/
theorem single_turn_terminal_fixed_message :
    (generate (.httpError 404 Json.null "primary-failed")
        (.networkError "underlying-A")).1 = .error .bothFormatsFailed
    ∧ (generate (.httpError 404 Json.null "primary-failed")
        (.networkError "underlying-B")).1 = .error .bothFormatsFailed
    ∧ ("underlying-A" : String) ≠ "underlying-B" :=
  ⟨rfl, rfl, by decide⟩

/-- C7 amended: when the primary attempt triggers fallback and the alternate
attempt also fails, the caller receives the terminal error — the fixed-message
`BothFormatsFailedError` for single-turn, and for multi-turn the
`NativeChatFailedError` wrapping the underlying failure's message — never the
raw underlying error, and no further fallback is attempted (the alternate
call count stays 1). -/
theorem terminal_errors_amended (s : Nat) (b : Json) (m : String) (altR : CallResult)
    (h404 : s = 404 ∨ s = 405) (hfail : altCallFails altR = true) :
    generate (.httpError s b m) altR = (.error .bothFormatsFailed, 1)
    ∧ chat (.httpError s b m) altR
        = (.error (.nativeChatFailed (altFailureMsg altR)), 1) := by
  constructor
  · cases altR with
    | success body =>
      cases hp : parseResponse (mkResponse body) Fmt.ollama with
      | ok v => simp [altCallFails, hp] at hfail
      | error p => simp [generate, handleApiError, h404, generateNativeOllama, hp]
    | httpError s2 b2 m2 => simp [generate, handleApiError, h404, generateNativeOllama]
    | networkError m2 => simp [generate, handleApiError, h404, generateNativeOllama]
    | setupError m2 => simp [generate, handleApiError, h404, generateNativeOllama]
  · cases altR with
    | success body =>
      cases hp : parseResponse (mkResponse body) Fmt.ollama with
      | ok v => simp [altCallFails, hp] at hfail
      | error p =>
        have hpb : p = body := parse_mkResponse_error_eq body p Fmt.ollama hp
        simp [chat, handleApiError, h404, chatNativeOllama, hp, altFailureMsg, hpb]
    | httpError s2 b2 m2 => simp [chat, handleApiError, h404, chatNativeOllama, altFailureMsg]
    | networkError m2 => simp [chat, handleApiError, h404, chatNativeOllama, altFailureMsg]
    | setupError m2 => simp [chat, handleApiError, h404, chatNativeOllama, altFailureMsg]

/-- Witness for C7 (amended): with a network failure on the alternate chat
endpoint, `chat` raises the wrapped terminal error carrying the underlying
message. -/
theorem terminal_errors_amended_witness :
    chat (.httpError 404 Json.null "m") (.networkError "boom")
      = (.error (.nativeChatFailed "boom"), 1) :=
  (terminal_errors_amended 404 Json.null "m" (.networkError "boom")
    (by decide) (by decide)).2

/-- C8: `searchWeb` never raises on failure — every failing outcome of the
provider POST (an HTTP error status such as 401, a transport failure, or a
setup failure) yields the empty result list. -/
theorem searchWeb_failure_returns_empty (r : CallResult) (lim : Nat)
    (h : ∀ d, r ≠ .success d) : searchWeb r lim = [] := by
  cases r with
  | success d => exact absurd rfl (h d)
  | httpError s b m => rfl
  | networkError m => rfl
  | setupError m => rfl

/-- Witness for C8: a 401 response yields the empty list. -/
theorem searchWeb_failure_returns_empty_witness :
    searchWeb (.httpError 401 Json.null "Request failed with status code 401") 5 = [] :=
  searchWeb_failure_returns_empty _ 5 (fun _ h => CallResult.noConfusion h)

/-- C9 counterexample: a successful provider response whose payload is falsy
(here the empty-string body) yields zero results, not exactly one. -/
theorem searchWeb_success_empty_payload :
    searchWeb (.success (Json.str "")) 5 = [] := rfl

/-- C9 amended: a successful provider response with a truthy payload yields
exactly one result, with the fixed title and URL, whose snippet is the
payload (stringified if not already a string) truncated to at most 5000
characters; the `limit` argument does not affect the returned sequence.  A
falsy payload yields the empty sequence. -/
theorem searchWeb_success_amended (data : Json) (lim lim2 : Nat)
    (h : Json.truthy data = true) :
    searchWeb (.success data) lim
      = [{ title := "Search Results", url := "https://www.google.com",
           snippet := String.mk ((dataToString data).toList.take 5000) }]
    ∧ (searchWeb (.success data) lim).length = 1
    ∧ (∀ r ∈ searchWeb (.success data) lim, r.snippet.length ≤ 5000)
    ∧ searchWeb (.success data) lim = searchWeb (.success data) lim2 := by
  have he : searchWeb (.success data) lim
      = [{ title := "Search Results", url := "https://www.google.com",
           snippet := String.mk ((dataToString data).toList.take 5000) }] := by
    simp [searchWeb, formatRawResults, h]
  refine ⟨he, by rw [he]; rfl, ?_, rfl⟩
  intro r hr
  rw [he] at hr
  simp only [List.mem_singleton] at hr
  rw [hr]
  exact List.length_take_le _ _

/-- Witness for C9 (amended): a short string payload comes back as the single
snippet, independent of the limit argument. -/
theorem searchWeb_success_amended_witness :
    searchWeb (.success (Json.str "payload")) 5
      = [{ title := "Search Results", url := "https://www.google.com",
           snippet := "payload" }] :=
  ((searchWeb_success_amended (Json.str "payload") 5 7 (by decide)).1).trans (by decide)

/-- C10: when the primary request fails with 404/405 and the alternate
request returns an HTTP success whose payload matches neither alternate
shape, `generate` raises the terminal both-formats-failed error — the
fallback's catch replaces the parse failure — not the invalid-format error. -/
theorem fallback_parse_failure_terminal (s : Nat) (b : Json) (m : String) (body : Json)
    (h404 : s = 404 ∨ s = 405) (hshape : hasAltShape body = false) :
    generate (.httpError s b m) (.success body) = (.error .bothFormatsFailed, 1) := by
  have hp : parseResponse (mkResponse body) .ollama = .error body :=
    (parse_ollama_spec body).2.2 hshape
  simp [generate, handleApiError, h404, generateNativeOllama, hp]

/-- Witness for C10: a 404 primary and a shape-less alternate payload give
the terminal error with exactly one alternate call. -/
theorem fallback_parse_failure_terminal_witness :
    generate (.httpError 404 Json.null "m")
        (.success (Json.obj [("unexpected", Json.str "x")]))
      = (.error .bothFormatsFailed, 1) :=
  fallback_parse_failure_terminal 404 Json.null "m"
    (Json.obj [("unexpected", Json.str "x")]) (by decide) (by decide)
